import Mathlib

set_option autoImplicit false
set_option maxHeartbeats 1000000

namespace SimBackend

/-- Bson-like values as they appear in a stored simulation document. Times are
abstract ticks, numbers are integers, nested documents are association lists. -/
inductive BVal where
  | str (s : String)
  | int (n : Int)
  | bool (b : Bool)
  | time (t : Nat)
  | arr (l : List BVal)
  | obj (l : List (String × BVal))

/-- Python truthiness of a stored value, as read by the guard `if not agent_id`
in start_audio_simulation_preview: empty strings, zero, false and empty
containers are falsy; datetimes are always truthy. -/
def BVal.truthy : BVal → Bool
  | .str s => !(s == "")
  | .int n => !(n == 0)
  | .bool b => b
  | .time _ => true
  | .arr l => !l.isEmpty
  | .obj l => !l.isEmpty

/-- Field lookup in a document kept as an association list. -/
def getKey : List (String × BVal) → String → Option BVal
  | [], _ => none
  | (k, v) :: rest, key => if k = key then some v else getKey rest key

/-- Setting one field of a document, the effect of one key of a Mongo set
update: replace the field in place when present, append it otherwise. -/
def setKey : List (String × BVal) → String → BVal → List (String × BVal)
  | [], key, v => [(key, v)]
  | (k, w) :: rest, key, v =>
    if k = key then (key, v) :: rest else (k, w) :: setKey rest key v

/-- Applying a whole Mongo set update document, field by field in order. -/
def applySet (doc : List (String × BVal)) (upd : List (String × BVal)) :
    List (String × BVal) :=
  upd.foldl (fun d p => setKey d p.1 p.2) doc

/-- A bson object id, kept as its 24 character hex string. -/
structure ObjectId where
  hex : String
deriving DecidableEq

/-- Hex digit test used by the bson object id validity check. -/
def isHexDigit (c : Char) : Bool :=
  c.isDigit || (97 ≤ c.toNat && c.toNat ≤ 102) || (65 ≤ c.toNat && c.toNat ≤ 70)

/-- Conversion of a string to an object id: the bson ObjectId constructor
accepts exactly the 24 character hex strings and raises InvalidId on any
other string. -/
def ObjectId.ofString (s : String) : Option ObjectId :=
  if s.length = 24 && s.toList.all isHexDigit then some ⟨s⟩ else none

/-- Message text of the bson InvalidId exception raised when a string is not
a valid object id. -/
def invalidIdMessage (s : String) : String :=
  s ++ " is not a valid ObjectId, it must be a 12-byte input or a 24-character hex string"

/-- Shallow model of a fastapi HTTPException: a status code and a detail
message. -/
structure HTTPException where
  status_code : Nat
  detail : String
deriving DecidableEq

/-- Starlette renders str(HTTPException) as the status code, a colon and the
detail; the service interpolates caught exceptions into its wrapper messages
through this rendering. -/
def httpExcStr (e : HTTPException) : String :=
  toString e.status_code ++ ": " ++ e.detail

/-- A provider HTTP response: the status, the parsed json body, and the text
that str(response) yields for the raw response object. -/
structure HttpResp (β : Type) where
  status : Nat
  body : β
  reprStr : String

/-- Parsed body of a create-retell-llm response. -/
structure LlmBody where
  llm_id : String
deriving DecidableEq

/-- Parsed body of a create-agent response. -/
structure AgentBody where
  agent_id : String
deriving DecidableEq

/-- Parsed body of a create-web-call response. -/
structure WebBody where
  access_token : String
deriving DecidableEq

/-- Parsed body of a chat-completions response, reduced to the extracted
content of the first choice message. -/
structure GenBody where
  content : String
deriving DecidableEq

/-- Client wrapper _create_retell_llm: a non-201 status raises an
HTTPException carrying that status, which the generic except clause of the
same method catches and wraps into a 500 whose message interpolates the
caught exception. -/
def create_retell_llm (resp : HttpResp LlmBody) : Except HTTPException LlmBody :=
  if resp.status ≠ 201 then
    .error ⟨500, "Error creating Retell LLM: "
      ++ httpExcStr ⟨resp.status, "Failed to create Retell LLM"⟩⟩
  else .ok resp.body

/-- Client wrapper _create_retell_agent, same shape as the llm client. -/
def create_retell_agent (resp : HttpResp AgentBody) : Except HTTPException AgentBody :=
  if resp.status ≠ 201 then
    .error ⟨500, "Error creating Retell Agent: "
      ++ httpExcStr ⟨resp.status, "Failed to create Retell Agent"⟩⟩
  else .ok resp.body

/-- Client wrapper _create_web_call, same shape as the llm client. -/
def create_web_call (resp : HttpResp WebBody) : Except HTTPException WebBody :=
  if resp.status ≠ 201 then
    .error ⟨500, "Error creating web call: "
      ++ httpExcStr ⟨resp.status, "Failed to create web call"⟩⟩
  else .ok resp.body

/-- Client wrapper _generate_simulation_prompt: a non-200 status raises an
HTTPException whose detail is the raw response object, which the generic
except clause wraps into a 500; on success the content of the first choice
is returned. -/
def generate_simulation_prompt (resp : HttpResp GenBody) : Except HTTPException String :=
  if resp.status ≠ 200 then
    .error ⟨500, "Error generating simulation prompt: "
      ++ httpExcStr ⟨resp.status, resp.reprStr⟩⟩
  else .ok resp.body.content

/-- Observable outbound calls of the service: the four provider calls and
the three store operations. -/
inductive Call where
  | generatePrompt (transcript : String)
  | createLlm (prompt : String)
  | createAgent (llm_id : String) (voice_id : String)
  | createWebCall (agent : BVal)
  | findOne (id : ObjectId)
  | insertOne (doc : List (String × BVal))
  | updateOne (id : ObjectId) (upd : List (String × BVal))

/-- Whether a call goes to the text-generation or agent provider. -/
def isProviderCall : Call → Bool
  | .generatePrompt _ => true
  | .createLlm _ => true
  | .createAgent _ _ => true
  | .createWebCall _ => true
  | _ => false

/-- Whether a call writes to the store. -/
def isStoreWrite : Call → Bool
  | .insertOne _ => true
  | .updateOne _ _ => true
  | _ => false

/-- Modelled from the spec: one authored script line. The schema module
api/schemas/requests.py is not among the sources; the service reads the role
and script_sentence attributes and serializes the whole line with dict(),
whose remaining per-line authoring fields are kept abstract here. -/
structure ScriptLine where
  role : String
  script_sentence : String
  extra : List (String × BVal)

/-- Serialization of a script line as the service stores it, s.dict(). -/
def ScriptLine.dict (s : ScriptLine) : BVal :=
  .obj (("role", .str s.role) :: ("script_sentence", .str s.script_sentence) :: s.extra)

/-- Modelled from the spec: the lvl1 sub-configuration block, with the ten
attributes the service copies into the stored object. -/
structure Lvl1Cfg where
  is_enabled : BVal
  enable_practice : BVal
  hide_agent_script : BVal
  hide_customer_script : BVal
  hide_keyword_scores : BVal
  hide_sentiment_scores : BVal
  hide_highlights : BVal
  hide_coaching_tips : BVal
  enable_post_simulation_survey : BVal
  ai_powered_pauses_and_feedback : BVal

/-- Modelled from the spec: the lvl2 and lvl3 sub-configuration blocks. -/
structure LvlToggle where
  is_enabled : BVal

/-- Modelled from the spec: the scoring metrics sub-configuration block. -/
structure ScoringCfg where
  is_enabled : BVal
  keyword_score : BVal
  click_score : BVal

/-- Modelled from the spec: the practice sub-configuration block. -/
structure PracticeCfg where
  is_unlimited : BVal
  pre_requisite_limit : BVal

/-- Stored representation of the lvl1 block, keys as written in the source. -/
def renderLvl1 (l : Lvl1Cfg) : BVal :=
  .obj [("isEnabled", l.is_enabled), ("enablePractice", l.enable_practice),
        ("hideAgentScript", l.hide_agent_script),
        ("hideCustomerScript", l.hide_customer_script),
        ("hideKeywordScores", l.hide_keyword_scores),
        ("hideSentimentScores", l.hide_sentiment_scores),
        ("hideHighlights", l.hide_highlights),
        ("hideCoachingTips", l.hide_coaching_tips),
        ("enablePostSimulationSurvey", l.enable_post_simulation_survey),
        ("aiPoweredPausesAndFeedback", l.ai_powered_pauses_and_feedback)]

/-- Stored representation of the lvl2 and lvl3 blocks. -/
def renderLvl (l : LvlToggle) : BVal := .obj [("isEnabled", l.is_enabled)]

/-- Stored representation of the scoring metrics block. -/
def renderScoring (m : ScoringCfg) : BVal :=
  .obj [("isEnabled", m.is_enabled), ("keywordScore", m.keyword_score),
        ("clickScore", m.click_score)]

/-- Stored representation of the practice block. -/
def renderPractice (p : PracticeCfg) : BVal :=
  .obj [("isUnlimited", p.is_unlimited), ("preRequisiteLimit", p.pre_requisite_limit)]

/-- Stored representation of a replacement script. -/
def renderScript (s : List ScriptLine) : BVal := .arr (s.map ScriptLine.dict)

/-- Modelled from the spec: the sparse update request. Every optional
attribute the service reads is a field; prompt and voice_id are the two the
service also consumes as strings. -/
structure UpdateSimulationRequest where
  user_id : String
  name : Option BVal
  division_id : Option BVal
  department_id : Option BVal
  type : Option BVal
  tags : Option BVal
  status : Option BVal
  estimated_time_to_attempt_in_mins : Option BVal
  key_objectives : Option BVal
  overview_video : Option BVal
  quick_tips : Option BVal
  voice_id : Option String
  language : Option BVal
  mood : Option BVal
  voice_speed : Option BVal
  prompt : Option String
  simulation_completion_repetition : Option BVal
  simulation_max_repetition : Option BVal
  final_simulation_score_criteria : Option BVal
  is_locked : Option BVal
  version : Option BVal
  assistant_id : Option BVal
  slides : Option BVal
  script : Option (List ScriptLine)
  lvl1 : Option Lvl1Cfg
  lvl2 : Option LvlToggle
  lvl3 : Option LvlToggle
  simulation_scoring_metrics : Option ScoringCfg
  sim_practice : Option PracticeCfg

/-- The field mapping table of update_simulation together with the special
object fields, in source order: each pair is the stored field name and the
optionally supplied staged value. -/
def optFields (r : UpdateSimulationRequest) : List (String × Option BVal) :=
  [("name", r.name),
   ("divisionId", r.division_id),
   ("departmentId", r.department_id),
   ("type", r.type),
   ("tags", r.tags),
   ("status", r.status),
   ("estimatedTimeToAttemptInMins", r.estimated_time_to_attempt_in_mins),
   ("keyObjectives", r.key_objectives),
   ("overviewVideo", r.overview_video),
   ("quickTips", r.quick_tips),
   ("voiceId", r.voice_id.map BVal.str),
   ("language", r.language),
   ("mood", r.mood),
   ("voice_speed", r.voice_speed),
   ("prompt", r.prompt.map BVal.str),
   ("simulationCompletionRepetition", r.simulation_completion_repetition),
   ("simulationMaxRepetition", r.simulation_max_repetition),
   ("finalSimulationScoreCriteria", r.final_simulation_score_criteria),
   ("isLocked", r.is_locked),
   ("version", r.version),
   ("assistantId", r.assistant_id),
   ("slides", r.slides),
   ("script", r.script.map renderScript),
   ("lvl1", r.lvl1.map renderLvl1),
   ("lvl2", r.lvl2.map renderLvl),
   ("lvl3", r.lvl3.map renderLvl),
   ("simulationScoringMetrics", r.simulation_scoring_metrics.map renderScoring),
   ("simPractice", r.sim_practice.map renderPractice)]

/-- The update document entries contributed by the supplied optional fields,
in source order: the None checks of add_if_exists and the special object
branches. -/
def baseEntries (r : UpdateSimulationRequest) : List (String × BVal) :=
  (optFields r).filterMap (fun p => p.2.map (fun v => (p.1, v)))

/-- The audit entries stamped unconditionally at the end of the update
document. -/
def auditEntries (r : UpdateSimulationRequest) (now : Nat) : List (String × BVal) :=
  [("lastModified", .time now), ("lastModifiedBy", .str r.user_id)]

/-- The voice id passed to create-agent: request.voice_id or the fixed
default. The Python or operator falls back to the default both when voice_id
is None and when it is the empty string, since the empty string is falsy. -/
def resolveVoice (v : Option String) : String :=
  match v with
  | none => "11labs-Adrian"
  | some s => if s = "" then "11labs-Adrian" else s

/-- The environment of one update call: the store content at lookup time,
the provider responses, the current time, and the modified count the store
reports for the single update issued. -/
structure UpdateWorld where
  store : ObjectId → Option (List (String × BVal))
  llmResp : String → HttpResp LlmBody
  agentResp : String → String → HttpResp AgentBody
  now : Nat
  modifiedCount : Nat

/-- Response of a successful update. -/
structure UpdResponse where
  id : String
  status : String
deriving DecidableEq

/-- Outcome of one update call: the outbound calls in order, the result, and
the state of the targeted record after the call when it existed. -/
structure UpdateOutcome where
  calls : List Call
  result : Except HTTPException UpdResponse
  storedAfter : Option (List (String × BVal))

/-- The provisioning entries staged when a prompt is supplied, written in
terms of the provider responses of the world. -/
def provEntries (w : UpdateWorld) (r : UpdateSimulationRequest) : List (String × BVal) :=
  match r.prompt with
  | none => []
  | some p =>
    [("llmId", .str (w.llmResp p).body.llm_id),
     ("agentId", .str ((w.agentResp (w.llmResp p).body.llm_id
        (resolveVoice r.voice_id)).body.agent_id))]

/-- The full update document staged by a run that reaches the store write. -/
def updSet (w : UpdateWorld) (r : UpdateSimulationRequest) : List (String × BVal) :=
  baseEntries r ++ provEntries w r ++ auditEntries r w.now

/-- The tail of update_simulation: issue the single update, then fail with a
500 when the store reports zero modified documents, succeed otherwise. -/
def finishUpdate (w : UpdateWorld) (simId : String) (oid : ObjectId)
    (doc : List (String × BVal)) (pre : List Call) (upd : List (String × BVal)) :
    UpdateOutcome :=
  if w.modifiedCount = 0 then
    ⟨pre ++ [.updateOne oid upd], .error ⟨500, "Failed to update simulation"⟩,
     some (applySet doc upd)⟩
  else
    ⟨pre ++ [.updateOne oid upd], .ok ⟨simId, "success"⟩, some (applySet doc upd)⟩

/-- Shallow embedding of SimulationService.update_simulation: convert the id,
look the record up, build the update document from the supplied fields,
provision the llm and then the agent when a prompt is supplied, stamp the
audit fields, and issue the single set update. HTTPExceptions raised along
the way are re-raised unchanged by the except clause; the id conversion error
is caught by the generic clause and wrapped as a 500. -/
def update_simulation (w : UpdateWorld) (simId : String)
    (r : UpdateSimulationRequest) : UpdateOutcome :=
  match ObjectId.ofString simId with
  | none =>
    ⟨[], .error ⟨500, "Error updating simulation: " ++ invalidIdMessage simId⟩, none⟩
  | some oid =>
    match w.store oid with
    | none =>
      ⟨[.findOne oid],
       .error ⟨404, "Simulation with id " ++ simId ++ " not found"⟩, none⟩
    | some doc =>
      match r.prompt with
      | none =>
        finishUpdate w simId oid doc [.findOne oid]
          (baseEntries r ++ auditEntries r w.now)
      | some p =>
        match create_retell_llm (w.llmResp p) with
        | .error e => ⟨[.findOne oid, .createLlm p], .error e, some doc⟩
        | .ok lbody =>
          match create_retell_agent
              (w.agentResp lbody.llm_id (resolveVoice r.voice_id)) with
          | .error e =>
            ⟨[.findOne oid, .createLlm p,
              .createAgent lbody.llm_id (resolveVoice r.voice_id)],
             .error e, some doc⟩
          | .ok abody =>
            finishUpdate w simId oid doc
              [.findOne oid, .createLlm p,
               .createAgent lbody.llm_id (resolveVoice r.voice_id)]
              (baseEntries r
                ++ [("llmId", .str lbody.llm_id), ("agentId", .str abody.agent_id)]
                ++ auditEntries r w.now)

/-- The environment of one create call: the generation response keyed by the
submitted transcript, the id the store assigns on insert, and the two
utcnow readings taken while the document is built. -/
structure CreateWorld where
  genResp : String → HttpResp GenBody
  insertedId : ObjectId
  now1 : Nat
  now2 : Nat

/-- Modelled from the spec: the creation request, with the attributes the
service reads. -/
structure CreateSimulationRequest where
  user_id : String
  name : BVal
  division_id : BVal
  department_id : BVal
  type : BVal
  tags : BVal
  script : List ScriptLine

/-- Response of a successful creation. -/
structure CreateResponse where
  id : String
  status : String
  prompt : String
deriving DecidableEq

/-- Outcome of one create call. -/
structure CreateOutcome where
  calls : List Call
  result : Except HTTPException CreateResponse

/-- The transcript derived from the script, as built in
_generate_simulation_prompt: each line rendered with an f-string as role,
colon, space, sentence, the lines joined by newlines. -/
def conversationOf (script : List ScriptLine) : String :=
  String.intercalate "\n" (script.map (fun s => s.role ++ ": " ++ s.script_sentence))

/-- The document create_simulation inserts, fields in source order. -/
def createDoc (r : CreateSimulationRequest) (prompt : String) (now1 now2 : Nat) :
    List (String × BVal) :=
  [("name", r.name), ("divisionId", r.division_id),
   ("departmentId", r.department_id), ("type", r.type),
   ("script", renderScript r.script),
   ("lastModifiedBy", .str r.user_id), ("lastModified", .time now1),
   ("createdBy", .str r.user_id), ("createdOn", .time now2),
   ("status", .str "draft"), ("version", .int 1),
   ("prompt", .str prompt), ("tags", r.tags)]

/-- Shallow embedding of SimulationService.create_simulation: generate the
prompt from the script, then build and insert the document. A generation
failure is an HTTPException, which the generic except clause wraps into a 500
whose message interpolates the caught exception. -/
def create_simulation (w : CreateWorld) (r : CreateSimulationRequest) :
    CreateOutcome :=
  match generate_simulation_prompt (w.genResp (conversationOf r.script)) with
  | .error e =>
    ⟨[.generatePrompt (conversationOf r.script)],
     .error ⟨500, "Error creating simulation: " ++ httpExcStr e⟩⟩
  | .ok prompt =>
    ⟨[.generatePrompt (conversationOf r.script),
      .insertOne (createDoc r prompt w.now1 w.now2)],
     .ok ⟨w.insertedId.hex, "success", prompt⟩⟩

/-- The environment of one preview call. -/
structure PreviewWorld where
  store : ObjectId → Option (List (String × BVal))
  webResp : BVal → HttpResp WebBody

/-- Response of a successful preview. -/
structure PreviewResponse where
  access_token : String
deriving DecidableEq

/-- Outcome of one preview call. -/
structure PreviewOutcome where
  calls : List Call
  result : Except HTTPException PreviewResponse

/-- Shallow embedding of SimulationService.start_audio_simulation_preview:
convert the id, look the record up, read agentId, fail with a 400 when it is
missing or falsy, otherwise request the web call and return its access
token. -/
def start_audio_simulation_preview (w : PreviewWorld) (simId : String)
    (_userId : String) : PreviewOutcome :=
  match ObjectId.ofString simId with
  | none =>
    ⟨[], .error ⟨500,
      "Error starting audio simulation preview: " ++ invalidIdMessage simId⟩⟩
  | some oid =>
    match w.store oid with
    | none =>
      ⟨[.findOne oid],
       .error ⟨404, "Simulation with id " ++ simId ++ " not found"⟩⟩
    | some doc =>
      match getKey doc "agentId" with
      | none =>
        ⟨[.findOne oid],
         .error ⟨400, "Simulation does not have an agent configured"⟩⟩
      | some a =>
        if a.truthy = false then
          ⟨[.findOne oid],
           .error ⟨400, "Simulation does not have an agent configured"⟩⟩
        else
          match create_web_call (w.webResp a) with
          | .error e => ⟨[.findOne oid, .createWebCall a], .error e⟩
          | .ok b => ⟨[.findOne oid, .createWebCall a], .ok ⟨b.access_token⟩⟩

/-- Spec side rendering of the transcript, by direct recursion on the lines:
each line as role, colon, space, sentence, joined by newlines. -/
def specTranscript : List ScriptLine → String
  | [] => ""
  | [l] => l.role ++ ": " ++ l.script_sentence
  | l :: l2 :: rest =>
    l.role ++ ": " ++ l.script_sentence ++ "\n" ++ specTranscript (l2 :: rest)

/-- Whether the update request supplies the stored field k, either through
the field mapping table or, for llmId and agentId, through a supplied
prompt. -/
def requestTargets (r : UpdateSimulationRequest) (k : String) : Bool :=
  (optFields r).any (fun p => p.1 == k && p.2.isSome)
  || ((k == "llmId" || k == "agentId") && r.prompt.isSome)

/-- A well formed 24 character hex identifier used in concrete runs. -/
def sampleId : String := "0123456789abcdef01234567"

/-- The object id sampleId converts to. -/
def sampleOid : ObjectId := ⟨sampleId⟩

/-- A string that is not a valid object id. -/
def badId : String := "not-a-valid-object-id"

/-- An update request that supplies no field at all. -/
def noneUpdateReq : UpdateSimulationRequest :=
  { user_id := "u", name := none, division_id := none, department_id := none,
    type := none, tags := none, status := none,
    estimated_time_to_attempt_in_mins := none, key_objectives := none,
    overview_video := none, quick_tips := none, voice_id := none,
    language := none, mood := none, voice_speed := none, prompt := none,
    simulation_completion_repetition := none, simulation_max_repetition := none,
    final_simulation_score_criteria := none, is_locked := none, version := none,
    assistant_id := none, slides := none, script := none, lvl1 := none,
    lvl2 := none, lvl3 := none, simulation_scoring_metrics := none,
    sim_practice := none }

/-- A stored document used in concrete runs. -/
def sampleDoc : List (String × BVal) :=
  [("name", BVal.str "old"), ("agentId", BVal.str "AG")]

/-- A stored document without an agentId field. -/
def noAgentDoc : List (String × BVal) := [("name", BVal.str "old")]

/-- An update environment in which the record exists, both provider calls
succeed and the store reports one modified document. -/
def okUpdateWorld : UpdateWorld :=
  { store := fun _ => some sampleDoc,
    llmResp := fun _ => ⟨201, ⟨"L1"⟩, "resp"⟩,
    agentResp := fun _ _ => ⟨201, ⟨"A1"⟩, "resp"⟩,
    now := 7, modifiedCount := 1 }

/-- An update environment in which no record exists. -/
def notFoundWorld : UpdateWorld :=
  { store := fun _ => none,
    llmResp := fun _ => ⟨201, ⟨"L1"⟩, "resp"⟩,
    agentResp := fun _ _ => ⟨201, ⟨"A1"⟩, "resp"⟩,
    now := 7, modifiedCount := 1 }

/-- A preview environment in which no record exists. -/
def notFoundPreview : PreviewWorld :=
  { store := fun _ => none, webResp := fun _ => ⟨201, ⟨"tok"⟩, "resp"⟩ }

/-- A preview environment whose record lacks an agentId. -/
def noAgentPreview : PreviewWorld :=
  { store := fun _ => some noAgentDoc, webResp := fun _ => ⟨201, ⟨"tok"⟩, "resp"⟩ }

/-- A request that supplies a prompt and the empty string as voice id. -/
def emptyVoiceReq : UpdateSimulationRequest :=
  { noneUpdateReq with prompt := some "P", voice_id := some "" }

/-- A request that supplies a prompt and no voice id. -/
def promptOnlyReq : UpdateSimulationRequest :=
  { noneUpdateReq with prompt := some "Be polite and concise." }

/-- The voice id arguments of the agent creation calls in a trace. -/
def agentVoiceArgs : List Call → List String :=
  List.filterMap (fun c =>
    match c with
    | Call.createAgent _ v => some v
    | _ => none)

/-- A stored document that already carries provisioned identifiers. -/
def pairDoc : List (String × BVal) :=
  [("llmId", BVal.str "L1"), ("agentId", BVal.str "A1")]

/-- An update environment whose llm provider returns the identifier already
stored while the agent provider returns a fresh one. -/
def pairWorld : UpdateWorld :=
  { store := fun _ => some pairDoc,
    llmResp := fun _ => ⟨201, ⟨"L1"⟩, "resp"⟩,
    agentResp := fun _ _ => ⟨201, ⟨"A2"⟩, "resp"⟩,
    now := 7, modifiedCount := 1 }

/-- A two line script used in concrete creation runs. -/
def sampleScript : List ScriptLine :=
  [⟨"agent", "Hello, how can I help?", []⟩, ⟨"customer", "I need a refund.", []⟩]

/-- A creation request used in concrete runs. -/
def sampleCreateReq : CreateSimulationRequest :=
  { user_id := "u", name := .str "n", division_id := .str "d",
    department_id := .str "dept", type := .str "t", tags := .arr [],
    script := sampleScript }

/-- A creation environment whose generation call succeeds. -/
def okCreateWorld : CreateWorld :=
  { genResp := fun _ => ⟨200, ⟨"GenP"⟩, "resp"⟩,
    insertedId := sampleOid, now1 := 1, now2 := 2 }

/-- A creation environment whose generation call fails with a 503. -/
def failCreateWorld : CreateWorld :=
  { genResp := fun _ => ⟨503, ⟨"GenP"⟩, "resp"⟩,
    insertedId := sampleOid, now1 := 1, now2 := 2 }

theorem getKey_setKey_self (d : List (String × BVal)) (k : String) (v : BVal) :
    getKey (setKey d k v) k = some v := by
  induction d with
  | nil => simp [setKey, getKey]
  | cons p t ih =>
    rcases p with ⟨a, b⟩
    by_cases h : a = k
    · simp [setKey, h, getKey]
    · simp [setKey, h, getKey, ih]

theorem getKey_setKey_ne (d : List (String × BVal)) (k1 k2 : String) (v : BVal)
    (h : k1 ≠ k2) : getKey (setKey d k1 v) k2 = getKey d k2 := by
  induction d with
  | nil => simp [setKey, getKey, h]
  | cons p t ih =>
    rcases p with ⟨a, b⟩
    by_cases ha : a = k1
    · subst ha
      simp [setKey, getKey, h]
    · by_cases hb : a = k2
      · subst hb
        simp [setKey, getKey, ha, Ne.symm h]
      · simp [setKey, ha, getKey, hb, ih]

theorem applySet_nil (d : List (String × BVal)) : applySet d [] = d := rfl

theorem applySet_cons (d : List (String × BVal)) (k : String) (v : BVal)
    (u : List (String × BVal)) :
    applySet d ((k, v) :: u) = applySet (setKey d k v) u := rfl

theorem applySet_append (d u1 u2 : List (String × BVal)) :
    applySet d (u1 ++ u2) = applySet (applySet d u1) u2 := by
  simp [applySet, List.foldl_append]

theorem getKey_applySet_notMem (d u : List (String × BVal)) (k : String)
    (h : k ∉ u.map Prod.fst) : getKey (applySet d u) k = getKey d k := by
  induction u generalizing d with
  | nil => rfl
  | cons p t ih =>
    rcases p with ⟨a, v⟩
    simp only [List.map_cons, List.mem_cons] at h
    push_neg at h
    rw [applySet_cons, ih _ h.2, getKey_setKey_ne _ _ _ _ (fun e => h.1 e.symm)]

theorem create_retell_llm_ok (resp : HttpResp LlmBody) (b : LlmBody)
    (h : create_retell_llm resp = .ok b) : resp.status = 201 ∧ b = resp.body := by
  unfold create_retell_llm at h
  split at h
  · exact absurd h (by simp)
  · next hc => exact ⟨by omega, by simpa using h.symm⟩

theorem create_retell_agent_ok (resp : HttpResp AgentBody) (b : AgentBody)
    (h : create_retell_agent resp = .ok b) : resp.status = 201 ∧ b = resp.body := by
  unfold create_retell_agent at h
  split at h
  · exact absurd h (by simp)
  · next hc => exact ⟨by omega, by simpa using h.symm⟩

theorem create_web_call_ok (resp : HttpResp WebBody) (b : WebBody)
    (h : create_web_call resp = .ok b) : resp.status = 201 ∧ b = resp.body := by
  unfold create_web_call at h
  split at h
  · exact absurd h (by simp)
  · next hc => exact ⟨by omega, by simpa using h.symm⟩

theorem generate_simulation_prompt_ok (resp : HttpResp GenBody) (s : String)
    (h : generate_simulation_prompt resp = .ok s) :
    resp.status = 200 ∧ s = resp.body.content := by
  unfold generate_simulation_prompt at h
  split at h
  · exact absurd h (by simp)
  · next hc => exact ⟨by omega, by simpa using h.symm⟩

theorem keys_filterMapOpt (l : List (String × Option BVal)) (k : String) :
    k ∈ (l.filterMap (fun p => p.2.map (fun v => (p.1, v)))).map Prod.fst ↔
      ∃ o, (k, some o) ∈ l := by
  induction l with
  | nil => simp
  | cons p t ih =>
    rcases p with ⟨a, o⟩
    cases o with
    | none =>
      simp only [List.filterMap_cons, Option.map_none', ih, List.mem_cons]
      constructor
      · rintro ⟨o, ho⟩
        exact ⟨o, Or.inr ho⟩
      · rintro ⟨o, ho | ho⟩
        · exact absurd ho (by simp)
        · exact ⟨o, ho⟩
    | some v =>
      simp only [List.filterMap_cons, Option.map_some', List.map_cons,
        List.mem_cons, ih]
      constructor
      · rintro (rfl | ⟨o, ho⟩)
        · exact ⟨v, Or.inl rfl⟩
        · exact ⟨o, Or.inr ho⟩
      · rintro ⟨o, ho | ho⟩
        · exact Or.inl (by simpa using congrArg Prod.fst ho)
        · exact Or.inr ⟨o, ho⟩

theorem keys_baseEntries (r : UpdateSimulationRequest) (k : String) :
    k ∈ (baseEntries r).map Prod.fst ↔ ∃ o, (k, some o) ∈ optFields r :=
  keys_filterMapOpt (optFields r) k

theorem requestTargets_of_mem_base (r : UpdateSimulationRequest) (k : String)
    (h : k ∈ (baseEntries r).map Prod.fst) : requestTargets r k = true := by
  rw [keys_baseEntries] at h
  obtain ⟨o, ho⟩ := h
  unfold requestTargets
  refine Bool.or_eq_true_iff.mpr (Or.inl ?_)
  rw [List.any_eq_true]
  exact ⟨(k, some o), ho, by simp⟩

theorem intercalate_go_append (s : String) (l : List String) (a b : String) :
    String.intercalate.go (a ++ b) s l = a ++ String.intercalate.go b s l := by
  induction l generalizing b with
  | nil => simp [String.intercalate.go]
  | cons c t ih =>
    rw [String.intercalate.go, String.intercalate.go]
    simp only [String.append_assoc]
    exact ih (b ++ (s ++ c))

theorem intercalate_cons_cons (s x y : String) (ys : List String) :
    String.intercalate s (x :: y :: ys)
      = x ++ s ++ String.intercalate s (y :: ys) := by
  show String.intercalate.go x s (y :: ys) = x ++ s ++ String.intercalate.go y s ys
  rw [String.intercalate.go]
  exact intercalate_go_append s ys (x ++ s) y

theorem conversationOf_eq_specTranscript (script : List ScriptLine) :
    conversationOf script = specTranscript script := by
  induction script with
  | nil => rfl
  | cons l rest ih =>
    cases rest with
    | nil => rfl
    | cons l2 t =>
      unfold conversationOf at ih ⊢
      simp only [List.map_cons] at ih ⊢
      rw [intercalate_cons_cons, ih]
      rfl

theorem finishUpdate_calls (w : UpdateWorld) (simId : String) (oid : ObjectId)
    (doc : List (String × BVal)) (pre : List Call) (upd : List (String × BVal)) :
    (finishUpdate w simId oid doc pre upd).calls = pre ++ [.updateOne oid upd] := by
  unfold finishUpdate
  split <;> rfl

theorem finishUpdate_storedAfter (w : UpdateWorld) (simId : String) (oid : ObjectId)
    (doc : List (String × BVal)) (pre : List Call) (upd : List (String × BVal)) :
    (finishUpdate w simId oid doc pre upd).storedAfter = some (applySet doc upd) := by
  unfold finishUpdate
  split <;> rfl

theorem finishUpdate_result (w : UpdateWorld) (simId : String) (oid : ObjectId)
    (doc : List (String × BVal)) (pre : List Call) (upd : List (String × BVal)) :
    (finishUpdate w simId oid doc pre upd).result
      = if w.modifiedCount = 0 then .error ⟨500, "Failed to update simulation"⟩
        else .ok ⟨simId, "success"⟩ := by
  unfold finishUpdate
  split <;> rfl

theorem update_updateOne_shape (w : UpdateWorld) (simId : String)
    (r : UpdateSimulationRequest) (oid2 : ObjectId) (upd : List (String × BVal))
    (h : Call.updateOne oid2 upd ∈ (update_simulation w simId r).calls) :
    ∃ oid doc, ObjectId.ofString simId = some oid ∧ oid2 = oid
      ∧ w.store oid = some doc
      ∧ upd = updSet w r
      ∧ (update_simulation w simId r).storedAfter = some (applySet doc (updSet w r))
      ∧ ∀ p, r.prompt = some p → (w.llmResp p).status = 201
          ∧ (w.agentResp (w.llmResp p).body.llm_id
              (resolveVoice r.voice_id)).status = 201 := by
  cases hid : ObjectId.ofString simId with
  | none =>
    have hcalls : (update_simulation w simId r).calls = [] := by
      simp [update_simulation, hid]
    rw [hcalls] at h
    simp at h
  | some oid =>
    cases hst : w.store oid with
    | none =>
      have hcalls : (update_simulation w simId r).calls = [.findOne oid] := by
        simp [update_simulation, hid, hst]
      rw [hcalls] at h
      simp at h
    | some doc =>
      cases hpr : r.prompt with
      | none =>
        have hupd : baseEntries r ++ auditEntries r w.now = updSet w r := by
          simp [updSet, provEntries, hpr]
        have hcalls : (update_simulation w simId r).calls
            = [.findOne oid, .updateOne oid (updSet w r)] := by
          simp [update_simulation, hid, hst, hpr, finishUpdate_calls, hupd]
        rw [hcalls] at h
        simp only [List.mem_cons, List.mem_singleton, List.not_mem_nil,
          or_false] at h
        rcases h with h | h
        · exact absurd h (by simp)
        · obtain ⟨h1, h2⟩ := by simpa using h
          refine ⟨oid, doc, rfl, h1, hst, h2, ?_, ?_⟩
          · simp [update_simulation, hid, hst, hpr, finishUpdate_storedAfter, hupd]
          · intro p hp
            exact absurd hp (by simp)
      | some p =>
        cases hllm : create_retell_llm (w.llmResp p) with
        | error e =>
          have hcalls : (update_simulation w simId r).calls
              = [.findOne oid, .createLlm p] := by
            simp [update_simulation, hid, hst, hpr, hllm]
          rw [hcalls] at h
          simp at h
        | ok lbody =>
          obtain ⟨hst201, hbody⟩ := create_retell_llm_ok _ _ hllm
          subst hbody
          cases hag : create_retell_agent
              (w.agentResp (w.llmResp p).body.llm_id (resolveVoice r.voice_id)) with
          | error e =>
            have hcalls : (update_simulation w simId r).calls
                = [.findOne oid, .createLlm p,
                   .createAgent (w.llmResp p).body.llm_id (resolveVoice r.voice_id)] := by
              simp [update_simulation, hid, hst, hpr, hllm, hag]
            rw [hcalls] at h
            simp at h
          | ok abody =>
            obtain ⟨hag201, habody⟩ := create_retell_agent_ok _ _ hag
            subst habody
            have hupd : baseEntries r
                ++ [("llmId", BVal.str (w.llmResp p).body.llm_id),
                    ("agentId", BVal.str ((w.agentResp (w.llmResp p).body.llm_id
                      (resolveVoice r.voice_id)).body.agent_id))]
                ++ auditEntries r w.now = updSet w r := by
              simp [updSet, provEntries, hpr]
            have hcalls : (update_simulation w simId r).calls
                = [.findOne oid, .createLlm p,
                   .createAgent (w.llmResp p).body.llm_id (resolveVoice r.voice_id),
                   .updateOne oid (updSet w r)] := by
              simp [update_simulation, hid, hst, hpr, hllm, hag,
                finishUpdate_calls, hupd]
            rw [hcalls] at h
            simp only [List.mem_cons, List.mem_singleton, List.not_mem_nil,
              or_false] at h
            rcases h with h | h | h | h
            · exact absurd h (by simp)
            · exact absurd h (by simp)
            · exact absurd h (by simp)
            · obtain ⟨h1, h2⟩ := by simpa using h
              refine ⟨oid, doc, rfl, h1, hst, h2, ?_, ?_⟩
              · simp [update_simulation, hid, hst, hpr, hllm, hag,
                  finishUpdate_storedAfter, hupd]
              · intro p2 hp2
                obtain rfl : p2 = p := by simpa using hp2.symm
                exact ⟨hst201, hag201⟩

theorem update_success_shape (w : UpdateWorld) (simId : String)
    (r : UpdateSimulationRequest) (resp : UpdResponse)
    (h : (update_simulation w simId r).result = .ok resp) :
    ∃ oid doc, ObjectId.ofString simId = some oid ∧ w.store oid = some doc
      ∧ resp = ⟨simId, "success"⟩
      ∧ Call.updateOne oid (updSet w r) ∈ (update_simulation w simId r).calls := by
  cases hid : ObjectId.ofString simId with
  | none =>
    have hres : (update_simulation w simId r).result
        = .error ⟨500, "Error updating simulation: " ++ invalidIdMessage simId⟩ := by
      simp [update_simulation, hid]
    rw [hres] at h
    exact absurd h (by simp)
  | some oid =>
    cases hst : w.store oid with
    | none =>
      have hres : (update_simulation w simId r).result
          = .error ⟨404, "Simulation with id " ++ simId ++ " not found"⟩ := by
        simp [update_simulation, hid, hst]
      rw [hres] at h
      exact absurd h (by simp)
    | some doc =>
      cases hpr : r.prompt with
      | none =>
        have hupd : baseEntries r ++ auditEntries r w.now = updSet w r := by
          simp [updSet, provEntries, hpr]
        have hres : (update_simulation w simId r).result
            = if w.modifiedCount = 0
              then .error ⟨500, "Failed to update simulation"⟩
              else .ok ⟨simId, "success"⟩ := by
          simp [update_simulation, hid, hst, hpr, finishUpdate_result]
        rw [hres] at h
        split at h
        · exact absurd h (by simp)
        · obtain rfl : resp = ⟨simId, "success"⟩ := by simpa using h.symm
          refine ⟨oid, doc, rfl, hst, rfl, ?_⟩
          have hcalls : (update_simulation w simId r).calls
              = [.findOne oid, .updateOne oid (updSet w r)] := by
            simp [update_simulation, hid, hst, hpr, finishUpdate_calls, hupd]
          rw [hcalls]
          simp
      | some p =>
        cases hllm : create_retell_llm (w.llmResp p) with
        | error e =>
          have hres : (update_simulation w simId r).result = .error e := by
            simp [update_simulation, hid, hst, hpr, hllm]
          rw [hres] at h
          exact absurd h (by simp)
        | ok lbody =>
          obtain ⟨hst201, hbody⟩ := create_retell_llm_ok _ _ hllm
          subst hbody
          cases hag : create_retell_agent
              (w.agentResp (w.llmResp p).body.llm_id (resolveVoice r.voice_id)) with
          | error e =>
            have hres : (update_simulation w simId r).result = .error e := by
              simp [update_simulation, hid, hst, hpr, hllm, hag]
            rw [hres] at h
            exact absurd h (by simp)
          | ok abody =>
            obtain ⟨hag201, habody⟩ := create_retell_agent_ok _ _ hag
            subst habody
            have hupd : baseEntries r
                ++ [("llmId", BVal.str (w.llmResp p).body.llm_id),
                    ("agentId", BVal.str ((w.agentResp (w.llmResp p).body.llm_id
                      (resolveVoice r.voice_id)).body.agent_id))]
                ++ auditEntries r w.now = updSet w r := by
              simp [updSet, provEntries, hpr]
            have hres : (update_simulation w simId r).result
                = if w.modifiedCount = 0
                  then .error ⟨500, "Failed to update simulation"⟩
                  else .ok ⟨simId, "success"⟩ := by
              simp [update_simulation, hid, hst, hpr, hllm, hag, finishUpdate_result]
            rw [hres] at h
            split at h
            · exact absurd h (by simp)
            · obtain rfl : resp = ⟨simId, "success"⟩ := by simpa using h.symm
              refine ⟨oid, doc, rfl, hst, rfl, ?_⟩
              have hcalls : (update_simulation w simId r).calls
                  = [.findOne oid, .createLlm p,
                     .createAgent (w.llmResp p).body.llm_id (resolveVoice r.voice_id),
                     .updateOne oid (updSet w r)] := by
                simp [update_simulation, hid, hst, hpr, hllm, hag,
                  finishUpdate_calls, hupd]
              rw [hcalls]
              simp

theorem getKey_eq_none (l : List (String × BVal)) (k : String)
    (h : k ∉ l.map Prod.fst) : getKey l k = none := by
  induction l with
  | nil => rfl
  | cons p t ih =>
    rcases p with ⟨a, v⟩
    simp only [List.map_cons, List.mem_cons] at h
    push_neg at h
    simp [getKey, Ne.symm h.1, ih h.2]

theorem requestTargets_false_of_prompt (r : UpdateSimulationRequest) (k : String)
    (h : requestTargets r k = false) (hs : r.prompt.isSome = true) :
    k ≠ "llmId" ∧ k ≠ "agentId" := by
  constructor <;> rintro rfl <;> simp [requestTargets, hs] at h

/-- C5: update or preview against a valid identifier that resolves to no
stored record fails with the distinct 404 NotFound condition, and no
text-generation or agent-provider call is observable in either trace. -/
theorem notfound_before_provider_calls (w : UpdateWorld) (pw : PreviewWorld)
    (simId userId : String) (r : UpdateSimulationRequest) (oid : ObjectId)
    (hid : ObjectId.ofString simId = some oid)
    (hw : w.store oid = none) (hpw : pw.store oid = none) :
    (update_simulation w simId r).result
        = .error ⟨404, "Simulation with id " ++ simId ++ " not found"⟩
    ∧ (update_simulation w simId r).calls.filter isProviderCall = []
    ∧ (start_audio_simulation_preview pw simId userId).result
        = .error ⟨404, "Simulation with id " ++ simId ++ " not found"⟩
    ∧ (start_audio_simulation_preview pw simId userId).calls.filter
        isProviderCall = [] := by
  refine ⟨?_, ?_, ?_, ?_⟩ <;>
    simp [update_simulation, start_audio_simulation_preview, hid, hw, hpw,
      isProviderCall]

/-- Witness for C5 at a concrete world with an empty store. -/
theorem notfound_before_provider_calls_witness :
    (ObjectId.ofString sampleId = some sampleOid
      ∧ notFoundWorld.store sampleOid = none
      ∧ notFoundPreview.store sampleOid = none)
    ∧ ((update_simulation notFoundWorld sampleId noneUpdateReq).result
        = .error ⟨404, "Simulation with id " ++ sampleId ++ " not found"⟩
    ∧ (update_simulation notFoundWorld sampleId noneUpdateReq).calls.filter
        isProviderCall = []
    ∧ (start_audio_simulation_preview notFoundPreview sampleId "u").result
        = .error ⟨404, "Simulation with id " ++ sampleId ++ " not found"⟩
    ∧ (start_audio_simulation_preview notFoundPreview sampleId "u").calls.filter
        isProviderCall = []) :=
  ⟨⟨rfl, rfl, rfl⟩,
   notfound_before_provider_calls notFoundWorld notFoundPreview sampleId "u"
     noneUpdateReq sampleOid rfl rfl rfl⟩

/-- C6: preview against an existing record with no agentId fails with the
400 precondition condition, distinct from NotFound, and issues zero provider
calls. -/
theorem preview_missing_agent_precondition (pw : PreviewWorld)
    (simId userId : String) (oid : ObjectId) (doc : List (String × BVal))
    (hid : ObjectId.ofString simId = some oid)
    (hst : pw.store oid = some doc)
    (hag : getKey doc "agentId" = none) :
    (start_audio_simulation_preview pw simId userId).result
        = .error ⟨400, "Simulation does not have an agent configured"⟩
    ∧ (start_audio_simulation_preview pw simId userId).calls.filter
        isProviderCall = [] := by
  constructor <;>
    simp [start_audio_simulation_preview, hid, hst, hag, isProviderCall]

/-- Witness for C6 at a concrete record without an agentId. -/
theorem preview_missing_agent_precondition_witness :
    (ObjectId.ofString sampleId = some sampleOid
      ∧ noAgentPreview.store sampleOid = some noAgentDoc
      ∧ getKey noAgentDoc "agentId" = none)
    ∧ ((start_audio_simulation_preview noAgentPreview sampleId "u").result
        = .error ⟨400, "Simulation does not have an agent configured"⟩
    ∧ (start_audio_simulation_preview noAgentPreview sampleId "u").calls.filter
        isProviderCall = []) :=
  ⟨⟨rfl, rfl, rfl⟩,
   preview_missing_agent_precondition noAgentPreview sampleId "u" sampleOid
     noAgentDoc rfl rfl rfl⟩

/-- C7: for every non-empty script, the transcript submitted to the
text-generation provider is the first call of the creation trace and equals
the lines rendered as role, colon, space, sentence in original order, joined
by newlines. -/
theorem create_transcript_shape (w : CreateWorld) (r : CreateSimulationRequest)
    (_hne : r.script ≠ []) :
    (create_simulation w r).calls.head?
      = some (.generatePrompt (specTranscript r.script)) := by
  rw [← conversationOf_eq_specTranscript]
  unfold create_simulation
  cases hg : generate_simulation_prompt (w.genResp (conversationOf r.script)) <;>
    simp [hg]

/-- Witness for C7 at the two line sample script. -/
theorem create_transcript_shape_witness :
    sampleCreateReq.script ≠ []
    ∧ (create_simulation okCreateWorld sampleCreateReq).calls.head?
        = some (.generatePrompt (specTranscript sampleCreateReq.script)) :=
  ⟨by simp [sampleCreateReq, sampleScript],
   create_transcript_shape okCreateWorld sampleCreateReq
     (by simp [sampleCreateReq, sampleScript])⟩

/-- C9: each client operation fails whenever the provider response status is
not the documented success code (200 for text generation, 201 for llm, agent
and web call creation), and the surfaced failure message embeds the provider
status. -/
theorem client_nonsuccess_status_failure (g : HttpResp GenBody)
    (l : HttpResp LlmBody) (a : HttpResp AgentBody) (wc : HttpResp WebBody) :
    (g.status ≠ 200 → generate_simulation_prompt g = .error ⟨500,
        "Error generating simulation prompt: "
          ++ (toString g.status ++ ": " ++ g.reprStr)⟩)
    ∧ (l.status ≠ 201 → create_retell_llm l = .error ⟨500,
        "Error creating Retell LLM: "
          ++ (toString l.status ++ ": " ++ "Failed to create Retell LLM")⟩)
    ∧ (a.status ≠ 201 → create_retell_agent a = .error ⟨500,
        "Error creating Retell Agent: "
          ++ (toString a.status ++ ": " ++ "Failed to create Retell Agent")⟩)
    ∧ (wc.status ≠ 201 → create_web_call wc = .error ⟨500,
        "Error creating web call: "
          ++ (toString wc.status ++ ": " ++ "Failed to create web call")⟩) := by
  refine ⟨?_, ?_, ?_, ?_⟩ <;> intro h <;>
    simp [generate_simulation_prompt, create_retell_llm, create_retell_agent,
      create_web_call, httpExcStr, h]

/-- Witness for C9 at concrete non-success responses. -/
theorem client_nonsuccess_status_failure_witness :
    ((503 : Nat) ≠ 200 ∧ (404 : Nat) ≠ 201)
    ∧ generate_simulation_prompt ⟨503, ⟨"c"⟩, "resp"⟩ = .error ⟨500,
        "Error generating simulation prompt: "
          ++ (toString (503 : Nat) ++ ": " ++ "resp")⟩
    ∧ create_retell_llm ⟨404, ⟨"L"⟩, "resp"⟩ = .error ⟨500,
        "Error creating Retell LLM: "
          ++ (toString (404 : Nat) ++ ": " ++ "Failed to create Retell LLM")⟩ :=
  ⟨⟨by decide, by decide⟩,
   (client_nonsuccess_status_failure ⟨503, ⟨"c"⟩, "resp"⟩ ⟨404, ⟨"L"⟩, "resp"⟩
      ⟨404, ⟨"A"⟩, "resp"⟩ ⟨404, ⟨"T"⟩, "resp"⟩).1 (by decide),
   (client_nonsuccess_status_failure ⟨503, ⟨"c"⟩, "resp"⟩ ⟨404, ⟨"L"⟩, "resp"⟩
      ⟨404, ⟨"A"⟩, "resp"⟩ ⟨404, ⟨"T"⟩, "resp"⟩).2.1 (by decide)⟩

/-- C10: an identifier that is not a syntactically valid object id makes
update and preview fail with the generic 500 service failure, the message
prefixed with the operation wrapper text, before any store lookup or
provider call. -/
theorem invalid_id_generic_500 (w : UpdateWorld) (pw : PreviewWorld)
    (simId userId : String) (r : UpdateSimulationRequest)
    (hid : ObjectId.ofString simId = none) :
    (update_simulation w simId r).result
        = .error ⟨500, "Error updating simulation: " ++ invalidIdMessage simId⟩
    ∧ (update_simulation w simId r).calls = []
    ∧ (start_audio_simulation_preview pw simId userId).result
        = .error ⟨500,
            "Error starting audio simulation preview: " ++ invalidIdMessage simId⟩
    ∧ (start_audio_simulation_preview pw simId userId).calls = [] := by
  refine ⟨?_, ?_, ?_, ?_⟩ <;>
    simp [update_simulation, start_audio_simulation_preview, hid]

/-- Witness for C10 at a malformed identifier. -/
theorem invalid_id_generic_500_witness :
    ObjectId.ofString badId = none
    ∧ ((update_simulation okUpdateWorld badId noneUpdateReq).result
        = .error ⟨500, "Error updating simulation: " ++ invalidIdMessage badId⟩
    ∧ (update_simulation okUpdateWorld badId noneUpdateReq).calls = []
    ∧ (start_audio_simulation_preview noAgentPreview badId "u").result
        = .error ⟨500,
            "Error starting audio simulation preview: " ++ invalidIdMessage badId⟩
    ∧ (start_audio_simulation_preview noAgentPreview badId "u").calls = []) :=
  ⟨rfl,
   invalid_id_generic_500 okUpdateWorld noAgentPreview badId "u" noneUpdateReq rfl⟩

/-- C4: no store write happens before the last step: an insert in the
creation trace implies the generation call succeeded, and an update write in
the update trace implies that, whenever a prompt was supplied, both
provisioning calls succeeded. -/
theorem no_store_write_before_success (cw : CreateWorld)
    (cr : CreateSimulationRequest) (w : UpdateWorld) (simId : String)
    (r : UpdateSimulationRequest) :
    (∀ d, Call.insertOne d ∈ (create_simulation cw cr).calls
        → (cw.genResp (conversationOf cr.script)).status = 200)
    ∧ (∀ oid upd, Call.updateOne oid upd ∈ (update_simulation w simId r).calls
        → ∀ p, r.prompt = some p → (w.llmResp p).status = 201
            ∧ (w.agentResp (w.llmResp p).body.llm_id
                (resolveVoice r.voice_id)).status = 201) := by
  constructor
  · intro d hd
    cases hg : generate_simulation_prompt (cw.genResp (conversationOf cr.script)) with
    | error e =>
      have hcalls : (create_simulation cw cr).calls
          = [.generatePrompt (conversationOf cr.script)] := by
        simp [create_simulation, hg]
      rw [hcalls] at hd
      simp at hd
    | ok prompt => exact (generate_simulation_prompt_ok _ _ hg).1
  · intro oid upd hm p hp
    obtain ⟨_, _, _, _, _, _, _, hprov⟩ := update_updateOne_shape w simId r oid upd hm
    exact hprov p hp

/-- Witness for C4: a concrete creation run that inserts after a successful
generation, and a concrete update run that writes after successful
provisioning. -/
theorem no_store_write_before_success_witness :
    (Call.insertOne (createDoc sampleCreateReq "GenP" 1 2)
        ∈ (create_simulation okCreateWorld sampleCreateReq).calls
      ∧ (okCreateWorld.genResp (conversationOf sampleCreateReq.script)).status = 200)
    ∧ (Call.updateOne sampleOid (updSet okUpdateWorld promptOnlyReq)
        ∈ (update_simulation okUpdateWorld sampleId promptOnlyReq).calls
      ∧ ((okUpdateWorld.llmResp "Be polite and concise.").status = 201
        ∧ (okUpdateWorld.agentResp
            (okUpdateWorld.llmResp "Be polite and concise.").body.llm_id
            (resolveVoice promptOnlyReq.voice_id)).status = 201)) :=
  ⟨⟨List.Mem.tail _ (List.Mem.head _),
    (no_store_write_before_success okCreateWorld sampleCreateReq okUpdateWorld
      sampleId promptOnlyReq).1 (createDoc sampleCreateReq "GenP" 1 2)
      (List.Mem.tail _ (List.Mem.head _))⟩,
   ⟨List.Mem.tail _ (List.Mem.tail _ (List.Mem.tail _ (List.Mem.head _))),
    (no_store_write_before_success okCreateWorld sampleCreateReq okUpdateWorld
      sampleId promptOnlyReq).2 sampleOid (updSet okUpdateWorld promptOnlyReq)
      (List.Mem.tail _ (List.Mem.tail _ (List.Mem.tail _ (List.Mem.head _))))
      "Be polite and concise." rfl⟩⟩

/-- C8: a creation whose generation call succeeds returns the new identifier,
a success status and the generated prompt, and the inserted document has
status draft, version 1, creator and modifier set to the requesting user and
no llmId or agentId field. -/
theorem create_success_document_shape (w : CreateWorld)
    (r : CreateSimulationRequest)
    (h200 : (w.genResp (conversationOf r.script)).status = 200) :
    (create_simulation w r).result
        = .ok ⟨w.insertedId.hex, "success",
            (w.genResp (conversationOf r.script)).body.content⟩
    ∧ ∀ d, Call.insertOne d ∈ (create_simulation w r).calls →
        (getKey d "status" = some (.str "draft")
        ∧ getKey d "version" = some (.int 1)
        ∧ getKey d "createdBy" = some (.str r.user_id)
        ∧ getKey d "lastModifiedBy" = some (.str r.user_id)
        ∧ getKey d "llmId" = none
        ∧ getKey d "agentId" = none) := by
  have hg : generate_simulation_prompt (w.genResp (conversationOf r.script))
      = .ok (w.genResp (conversationOf r.script)).body.content := by
    simp [generate_simulation_prompt, h200]
  constructor
  · simp [create_simulation, hg]
  · intro d hd
    have hcalls : (create_simulation w r).calls
        = [.generatePrompt (conversationOf r.script),
           .insertOne (createDoc r
             ((w.genResp (conversationOf r.script)).body.content) w.now1 w.now2)] := by
      simp [create_simulation, hg]
    rw [hcalls] at hd
    simp only [List.mem_cons, List.mem_singleton, List.not_mem_nil, or_false] at hd
    rcases hd with hd | hd
    · exact absurd hd (by simp)
    · obtain rfl : d = createDoc r
          ((w.genResp (conversationOf r.script)).body.content) w.now1 w.now2 := by
        simpa using hd
      refine ⟨rfl, rfl, rfl, rfl, rfl, rfl⟩

/-- Witness for C8 at a concrete creation run. -/
theorem create_success_document_shape_witness :
    (okCreateWorld.genResp (conversationOf sampleCreateReq.script)).status = 200
    ∧ (create_simulation okCreateWorld sampleCreateReq).result
        = .ok ⟨sampleId, "success", "GenP"⟩
    ∧ (getKey (createDoc sampleCreateReq "GenP" 1 2) "status"
        = some (.str "draft")
      ∧ getKey (createDoc sampleCreateReq "GenP" 1 2) "llmId" = none
      ∧ getKey (createDoc sampleCreateReq "GenP" 1 2) "agentId" = none) :=
  ⟨rfl,
   (create_success_document_shape okCreateWorld sampleCreateReq rfl).1,
   (fun h => ⟨h.1, h.2.2.2.2.1, h.2.2.2.2.2⟩)
     ((create_success_document_shape okCreateWorld sampleCreateReq rfl).2
       (createDoc sampleCreateReq "GenP" 1 2)
       (List.Mem.tail _ (List.Mem.head _)))⟩

theorem not_in_baseEntries (r : UpdateSimulationRequest) (k : String)
    (h : ∀ o, (k, some o) ∉ optFields r) : k ∉ (baseEntries r).map Prod.fst := by
  intro hmem
  rw [keys_baseEntries] at hmem
  obtain ⟨o, ho⟩ := hmem
  exact h o ho

theorem key_not_in_updSet (w : UpdateWorld) (r : UpdateSimulationRequest)
    (k : String) (hbase : ∀ o, (k, some o) ∉ optFields r)
    (hllm : k ≠ "llmId") (hagent : k ≠ "agentId")
    (hlm : k ≠ "lastModified") (hlmb : k ≠ "lastModifiedBy") :
    k ∉ (updSet w r).map Prod.fst := by
  rw [updSet]
  simp only [List.map_append, List.mem_append]
  rintro ((h | h) | h)
  · exact not_in_baseEntries r k hbase h
  · cases hpv : r.prompt with
    | none => simp [provEntries, hpv] at h
    | some p =>
      simp [provEntries, hpv] at h
      rcases h with h | h
      · exact hllm h
      · exact hagent h
  · simp [auditEntries] at h
    rcases h with h | h
    · exact hlm h
    · exact hlmb h

theorem pair_not_in_updSet_of_no_prompt (w : UpdateWorld)
    (r : UpdateSimulationRequest) (hp : r.prompt = none) :
    "llmId" ∉ (updSet w r).map Prod.fst
    ∧ "agentId" ∉ (updSet w r).map Prod.fst := by
  constructor
  all_goals
    rw [updSet]
    simp only [List.map_append, List.mem_append]
    rintro ((h | h) | h)
    · rw [keys_baseEntries] at h
      obtain ⟨o, ho⟩ := h
      simp [optFields] at ho
    · simp [provEntries, hp] at h
    · simp [auditEntries] at h

/-- C1 counterexample: a request that supplies the empty string as voice id
together with a prompt. The claim says the agent creation call uses the
request voice id whenever one is given, but the Python or operator treats the
empty string as absent, so the call uses the default instead. -/
theorem update_voice_empty_counterexample :
    emptyVoiceReq.prompt = some "P"
    ∧ emptyVoiceReq.voice_id = some ""
    ∧ agentVoiceArgs (update_simulation okUpdateWorld sampleId emptyVoiceReq).calls
        = ["11labs-Adrian"]
    ∧ ("" : String) ≠ "11labs-Adrian" :=
  ⟨rfl, rfl, rfl, by decide⟩

/-- C1 amended: when a prompt is supplied and provisioning succeeds, the
update first creates the llm from the prompt, then creates the agent bound to
the returned llm id and to the resolved voice id, which is the request voice
id when it is a non-empty string and the default 11labs-Adrian when voice_id
is absent or empty, and stages both returned identifiers under llmId and
agentId; when no prompt is supplied, no provider call is made and neither
llmId nor agentId appears in the update set. -/
theorem update_prompt_provisioning (w : UpdateWorld) (simId : String)
    (r : UpdateSimulationRequest) (oid : ObjectId) (doc : List (String × BVal))
    (hid : ObjectId.ofString simId = some oid) (hst : w.store oid = some doc) :
    (∀ p, r.prompt = some p → (w.llmResp p).status = 201
      → (w.agentResp (w.llmResp p).body.llm_id (resolveVoice r.voice_id)).status = 201
      → ((update_simulation w simId r).calls.filter isProviderCall
          = [.createLlm p,
             .createAgent (w.llmResp p).body.llm_id (resolveVoice r.voice_id)]
        ∧ ∀ oid2 upd,
            Call.updateOne oid2 upd ∈ (update_simulation w simId r).calls
            → ("llmId", BVal.str (w.llmResp p).body.llm_id) ∈ upd
              ∧ ("agentId", BVal.str ((w.agentResp (w.llmResp p).body.llm_id
                  (resolveVoice r.voice_id)).body.agent_id)) ∈ upd))
    ∧ (r.prompt = none →
        ((update_simulation w simId r).calls.filter isProviderCall = []
        ∧ ∀ oid2 upd,
            Call.updateOne oid2 upd ∈ (update_simulation w simId r).calls
            → getKey upd "llmId" = none ∧ getKey upd "agentId" = none)) := by
  constructor
  · intro p hp h201l h201a
    have hllm : create_retell_llm (w.llmResp p) = .ok (w.llmResp p).body := by
      simp [create_retell_llm, h201l]
    have hag : create_retell_agent (w.agentResp (w.llmResp p).body.llm_id
        (resolveVoice r.voice_id)) = .ok (w.agentResp (w.llmResp p).body.llm_id
        (resolveVoice r.voice_id)).body := by
      simp [create_retell_agent, h201a]
    have hupd : baseEntries r
        ++ [("llmId", BVal.str (w.llmResp p).body.llm_id),
            ("agentId", BVal.str ((w.agentResp (w.llmResp p).body.llm_id
              (resolveVoice r.voice_id)).body.agent_id))]
        ++ auditEntries r w.now = updSet w r := by
      simp [updSet, provEntries, hp]
    have hcalls : (update_simulation w simId r).calls
        = [.findOne oid, .createLlm p,
           .createAgent (w.llmResp p).body.llm_id (resolveVoice r.voice_id),
           .updateOne oid (updSet w r)] := by
      simp [update_simulation, hid, hst, hp, hllm, hag, finishUpdate_calls, hupd]
    constructor
    · rw [hcalls]
      simp [isProviderCall]
    · intro oid2 upd hm
      rw [hcalls] at hm
      simp only [List.mem_cons, List.mem_singleton, List.not_mem_nil,
        or_false] at hm
      rcases hm with hm | hm | hm | hm
      · exact absurd hm (by simp)
      · exact absurd hm (by simp)
      · exact absurd hm (by simp)
      · obtain ⟨h1, rfl⟩ : oid2 = oid ∧ upd = updSet w r := by simpa using hm
        constructor <;> simp [updSet, provEntries, hp]
  · intro hp
    have hupd : baseEntries r ++ auditEntries r w.now = updSet w r := by
      simp [updSet, provEntries, hp]
    have hcalls : (update_simulation w simId r).calls
        = [.findOne oid, .updateOne oid (updSet w r)] := by
      simp [update_simulation, hid, hst, hp, finishUpdate_calls, hupd]
    constructor
    · rw [hcalls]
      simp [isProviderCall]
    · intro oid2 upd hm
      rw [hcalls] at hm
      simp only [List.mem_cons, List.mem_singleton, List.not_mem_nil,
        or_false] at hm
      rcases hm with hm | hm
      · exact absurd hm (by simp)
      · obtain ⟨h1, rfl⟩ : oid2 = oid ∧ upd = updSet w r := by simpa using hm
        obtain ⟨hkl, hka⟩ := pair_not_in_updSet_of_no_prompt w r hp
        exact ⟨getKey_eq_none _ _ hkl, getKey_eq_none _ _ hka⟩

/-- Witness for the amended C1 at a concrete provisioning run and a concrete
promptless run. -/
theorem update_prompt_provisioning_witness :
    (ObjectId.ofString sampleId = some sampleOid
      ∧ okUpdateWorld.store sampleOid = some sampleDoc
      ∧ promptOnlyReq.prompt = some "Be polite and concise."
      ∧ resolveVoice promptOnlyReq.voice_id = "11labs-Adrian")
    ∧ ((update_simulation okUpdateWorld sampleId promptOnlyReq).calls.filter
          isProviderCall
        = [.createLlm "Be polite and concise.",
           .createAgent "L1" "11labs-Adrian"]
      ∧ (("llmId", BVal.str "L1") ∈ updSet okUpdateWorld promptOnlyReq
        ∧ ("agentId", BVal.str "A1") ∈ updSet okUpdateWorld promptOnlyReq))
    ∧ ((update_simulation okUpdateWorld sampleId noneUpdateReq).calls.filter
          isProviderCall = []) :=
  ⟨⟨rfl, rfl, rfl, rfl⟩,
   ⟨((update_prompt_provisioning okUpdateWorld sampleId promptOnlyReq sampleOid
        sampleDoc rfl rfl).1 "Be polite and concise." rfl rfl rfl).1,
    ((update_prompt_provisioning okUpdateWorld sampleId promptOnlyReq sampleOid
        sampleDoc rfl rfl).1 "Be polite and concise." rfl rfl rfl).2 sampleOid
      (updSet okUpdateWorld promptOnlyReq)
      (List.Mem.tail _ (List.Mem.tail _ (List.Mem.tail _ (List.Mem.head _))))⟩,
   ((update_prompt_provisioning okUpdateWorld sampleId noneUpdateReq sampleOid
      sampleDoc rfl rfl).2 rfl).1⟩

/-- C2 counterexample: a successful update in which the llm provider returns
the identifier already stored while the agent provider returns a fresh one.
Both fields are rewritten, but exactly one of the stored values changes,
refuting the claim that after a successful update either both changed or
neither did. -/
theorem update_pair_changed_counterexample :
    (update_simulation pairWorld sampleId promptOnlyReq).result
        = .ok ⟨sampleId, "success"⟩
    ∧ getKey ((update_simulation pairWorld sampleId
        promptOnlyReq).storedAfter.getD []) "llmId" = getKey pairDoc "llmId"
    ∧ getKey ((update_simulation pairWorld sampleId
        promptOnlyReq).storedAfter.getD []) "agentId" ≠ getKey pairDoc "agentId" := by
  refine ⟨rfl, rfl, ?_⟩
  intro hcontra
  have h1 : getKey ((update_simulation pairWorld sampleId
      promptOnlyReq).storedAfter.getD []) "agentId" = some (BVal.str "A2") := rfl
  have h2 : getKey pairDoc "agentId" = some (BVal.str "A1") := rfl
  rw [h1, h2] at hcontra
  simp at hcontra

/-- C2 amended: after every successful update, llmId and agentId are either
both rewritten with the provider identifiers, exactly when the request
supplied a prompt, or both left untouched; a rewritten value may coincide
with the stored one, so exactly one stored value may change when the
provider returns an identifier equal to the stored one. -/
theorem update_pair_binding (w : UpdateWorld) (simId : String)
    (r : UpdateSimulationRequest) (resp : UpdResponse) (oid : ObjectId)
    (doc after : List (String × BVal))
    (hid : ObjectId.ofString simId = some oid)
    (hst : w.store oid = some doc)
    (hok : (update_simulation w simId r).result = .ok resp)
    (hsa : (update_simulation w simId r).storedAfter = some after) :
    (r.prompt = none → getKey after "llmId" = getKey doc "llmId"
        ∧ getKey after "agentId" = getKey doc "agentId")
    ∧ (∀ p, r.prompt = some p →
        getKey after "llmId" = some (.str (w.llmResp p).body.llm_id)
        ∧ getKey after "agentId" = some (.str ((w.agentResp
            (w.llmResp p).body.llm_id (resolveVoice r.voice_id)).body.agent_id))) := by
  obtain ⟨oid1, doc1, hid1, hst1, hresp, hmem⟩ :=
    update_success_shape w simId r resp hok
  obtain ⟨oid2, doc2, hid2, hoideq, hst2, _, hsa2, _⟩ :=
    update_updateOne_shape w simId r oid1 (updSet w r) hmem
  have hoid : oid2 = oid := by
    rw [hid] at hid2
    exact (Option.some.inj hid2).symm
  rw [hoid] at hst2
  have hdoc : doc2 = doc := by
    rw [hst] at hst2
    exact (Option.some.inj hst2).symm
  rw [hdoc] at hsa2
  have hafter : after = applySet doc (updSet w r) :=
    Option.some.inj (hsa.symm.trans hsa2)
  subst hafter
  constructor
  · intro hp
    obtain ⟨hkl, hka⟩ := pair_not_in_updSet_of_no_prompt w r hp
    exact ⟨getKey_applySet_notMem _ _ _ hkl, getKey_applySet_notMem _ _ _ hka⟩
  · intro p hp
    have hprv : updSet w r = (baseEntries r
        ++ [("llmId", BVal.str (w.llmResp p).body.llm_id),
            ("agentId", BVal.str ((w.agentResp (w.llmResp p).body.llm_id
              (resolveVoice r.voice_id)).body.agent_id))])
        ++ auditEntries r w.now := by
      simp [updSet, provEntries, hp]
    rw [hprv, applySet_append, applySet_append]
    constructor
    · rw [getKey_applySet_notMem _ _ _ (by simp [auditEntries])]
      rw [applySet_cons, applySet_cons, applySet_nil]
      rw [getKey_setKey_ne _ _ _ _ (by decide)]
      exact getKey_setKey_self _ _ _
    · rw [getKey_applySet_notMem _ _ _ (by simp [auditEntries])]
      rw [applySet_cons, applySet_cons, applySet_nil]
      exact getKey_setKey_self _ _ _

/-- Witness for the amended C2 at a concrete successful provisioning run and
the run shape it asserts. -/
theorem update_pair_binding_witness :
    (ObjectId.ofString sampleId = some sampleOid
      ∧ okUpdateWorld.store sampleOid = some sampleDoc
      ∧ (update_simulation okUpdateWorld sampleId promptOnlyReq).result
          = .ok ⟨sampleId, "success"⟩
      ∧ (update_simulation okUpdateWorld sampleId promptOnlyReq).storedAfter
          = some ((update_simulation okUpdateWorld sampleId
              promptOnlyReq).storedAfter.getD []))
    ∧ (getKey ((update_simulation okUpdateWorld sampleId
          promptOnlyReq).storedAfter.getD []) "llmId" = some (BVal.str "L1")
      ∧ getKey ((update_simulation okUpdateWorld sampleId
          promptOnlyReq).storedAfter.getD []) "agentId" = some (BVal.str "A1")) :=
  ⟨⟨rfl, rfl, rfl, rfl⟩,
   (update_pair_binding okUpdateWorld sampleId promptOnlyReq
      ⟨sampleId, "success"⟩ sampleOid sampleDoc
      ((update_simulation okUpdateWorld sampleId
        promptOnlyReq).storedAfter.getD [])
      rfl rfl rfl rfl).2 "Be polite and concise." rfl⟩

/-- C3: after every successful update, every stored field whose
corresponding request field is absent is unchanged, lastModified and
lastModifiedBy carry the current time and the requesting user, and the
update set of the issued write stamps both audit fields while never
containing createdBy or createdOn. -/
theorem update_partial_frame (w : UpdateWorld) (simId : String)
    (r : UpdateSimulationRequest) (resp : UpdResponse) (oid : ObjectId)
    (doc after : List (String × BVal))
    (hid : ObjectId.ofString simId = some oid)
    (hst : w.store oid = some doc)
    (hok : (update_simulation w simId r).result = .ok resp)
    (hsa : (update_simulation w simId r).storedAfter = some after) :
    (∀ k, requestTargets r k = false → k ≠ "lastModified"
        → k ≠ "lastModifiedBy" → getKey after k = getKey doc k)
    ∧ getKey after "lastModified" = some (.time w.now)
    ∧ getKey after "lastModifiedBy" = some (.str r.user_id)
    ∧ ∀ oid2 upd, Call.updateOne oid2 upd ∈ (update_simulation w simId r).calls
        → (getKey upd "createdBy" = none
          ∧ getKey upd "createdOn" = none
          ∧ ("lastModified", BVal.time w.now) ∈ upd
          ∧ ("lastModifiedBy", BVal.str r.user_id) ∈ upd) := by
  obtain ⟨oid1, doc1, hid1, hst1, hresp, hmem⟩ :=
    update_success_shape w simId r resp hok
  obtain ⟨oid2, doc2, hid2, hoideq, hst2, _, hsa2, _⟩ :=
    update_updateOne_shape w simId r oid1 (updSet w r) hmem
  have hoid : oid2 = oid := by
    rw [hid] at hid2
    exact (Option.some.inj hid2).symm
  rw [hoid] at hst2
  have hdoc : doc2 = doc := by
    rw [hst] at hst2
    exact (Option.some.inj hst2).symm
  rw [hdoc] at hsa2
  have hafter : after = applySet doc (updSet w r) :=
    Option.some.inj (hsa.symm.trans hsa2)
  subst hafter
  refine ⟨?_, ?_, ?_, ?_⟩
  · intro k hk hk1 hk2
    refine getKey_applySet_notMem _ _ _ ?_
    rw [updSet]
    simp only [List.map_append, List.mem_append]
    rintro ((h | h) | h)
    · exact absurd (requestTargets_of_mem_base r k h) (by simp [hk])
    · cases hpv : r.prompt with
      | none => simp [provEntries, hpv] at h
      | some p =>
        simp [provEntries, hpv] at h
        obtain ⟨hne1, hne2⟩ :=
          requestTargets_false_of_prompt r k hk (by simp [hpv])
        rcases h with h | h
        · exact hne1 h
        · exact hne2 h
    · simp [auditEntries] at h
      rcases h with h | h
      · exact hk1 h
      · exact hk2 h
  · rw [updSet, applySet_append]
    simp only [auditEntries]
    rw [applySet_cons, applySet_cons, applySet_nil]
    rw [getKey_setKey_ne _ _ _ _ (by decide)]
    exact getKey_setKey_self _ _ _
  · rw [updSet, applySet_append]
    simp only [auditEntries]
    rw [applySet_cons, applySet_cons, applySet_nil]
    exact getKey_setKey_self _ _ _
  · intro oid3 upd hm
    obtain ⟨oid4, doc4, _, _, _, hupdeq, _, _⟩ :=
      update_updateOne_shape w simId r oid3 upd hm
    subst hupdeq
    refine ⟨?_, ?_, ?_, ?_⟩
    · refine getKey_eq_none _ _ (key_not_in_updSet w r "createdBy" ?_
        (by decide) (by decide) (by decide) (by decide))
      intro o ho
      simp [optFields] at ho
    · refine getKey_eq_none _ _ (key_not_in_updSet w r "createdOn" ?_
        (by decide) (by decide) (by decide) (by decide))
      intro o ho
      simp [optFields] at ho
    · simp [updSet, auditEntries]
    · simp [updSet, auditEntries]

/-- Witness for C3 at a concrete promptless update run: the untouched name
field keeps its stored value, audit fields are stamped, and the issued
update set contains neither createdBy nor createdOn. -/
theorem update_partial_frame_witness :
    (ObjectId.ofString sampleId = some sampleOid
      ∧ okUpdateWorld.store sampleOid = some sampleDoc
      ∧ (update_simulation okUpdateWorld sampleId noneUpdateReq).result
          = .ok ⟨sampleId, "success"⟩
      ∧ (update_simulation okUpdateWorld sampleId noneUpdateReq).storedAfter
          = some ((update_simulation okUpdateWorld sampleId
              noneUpdateReq).storedAfter.getD [])
      ∧ requestTargets noneUpdateReq "name" = false)
    ∧ (getKey ((update_simulation okUpdateWorld sampleId
          noneUpdateReq).storedAfter.getD []) "name" = getKey sampleDoc "name"
      ∧ getKey ((update_simulation okUpdateWorld sampleId
          noneUpdateReq).storedAfter.getD []) "lastModified"
          = some (BVal.time 7)
      ∧ getKey ((update_simulation okUpdateWorld sampleId
          noneUpdateReq).storedAfter.getD []) "lastModifiedBy"
          = some (BVal.str "u")
      ∧ getKey (updSet okUpdateWorld noneUpdateReq) "createdBy" = none
      ∧ getKey (updSet okUpdateWorld noneUpdateReq) "createdOn" = none) := by
  have h := update_partial_frame okUpdateWorld sampleId noneUpdateReq
    ⟨sampleId, "success"⟩ sampleOid sampleDoc
    ((update_simulation okUpdateWorld sampleId noneUpdateReq).storedAfter.getD [])
    rfl rfl rfl rfl
  have hupd := h.2.2.2 sampleOid (updSet okUpdateWorld noneUpdateReq)
    (List.Mem.tail _ (List.Mem.head _))
  exact ⟨⟨rfl, rfl, rfl, rfl, rfl⟩,
    h.1 "name" rfl (by decide) (by decide), h.2.1, h.2.2.1, hupd.1, hupd.2.1⟩

end SimBackend
